import Mathlib

/-!
Verification development for the ferret fraud-scanning engine.

This file gives a shallow embedding, in Lean, of the scoring and
batch-aggregation core of the repository: the indicator aggregator
(detectors/comprehensive_detector.py), the exclusion detector, the
batch scanner fast checks and alert scoring (daily_scan.py), the
address index, the Benford distribution check (detectors/benford.py),
the contract-splitting detector (detectors/pricing.py) and the
modification-growth detectors (detectors/modifications.py).

Modelling conventions:
- Python str values stay String; severities and risk levels are the
  literal strings used by the code.
- Python float dollar amounts and ratios are embedded as exact
  rationals; the numeric literals of the source (0.85, 0.999, 0.301,
  15.51, ...) become the corresponding rationals.
- Dates are embedded as day numbers (integers); a date string that the
  code fails to parse with strptime is embedded as none.
- External lookups (entity directory, exclusion list) are parameters:
  an environment record supplies them, mirroring LocalDataStore.
- Free-text description / recommendation strings are carried only where
  a claim depends on them; numeric evidence payloads are carried as
  named fields or (key, value) lists mirroring the Python dicts.
-/

namespace Ferret

/-- Embeds FraudIndicator (comprehensive_detector.py).  The description,
evidence and recommendation free-text fields are elided: the aggregation
logic only reads category, pattern_type, severity and score. -/
structure FraudIndicator where
  category : String
  pattern_type : String
  severity : String
  score : Nat
deriving DecidableEq, Repr

/-- Deduplication key used by analyze_contractor: the
(category, pattern_type) pair. -/
def dedupKey (i : FraudIndicator) : String × String :=
  (i.category, i.pattern_type)

/-- Embeds the dedup loop of analyze_contractor (lines 390-399): walk the
collected list, keep an indicator only if its (category, pattern_type)
key has not been seen, and record the key as seen. -/
def dedupGo (seen : List (String × String)) :
    List FraudIndicator → List FraudIndicator
  | [] => []
  | i :: rest =>
      if dedupKey i ∈ seen then dedupGo seen rest
      else i :: dedupGo (dedupKey i :: seen) rest

/-- The deduplicated indicator list, starting from an empty seen set. -/
def dedupIndicators (l : List FraudIndicator) : List FraudIndicator :=
  dedupGo [] l

/-- Embeds the category_scores accumulation (defaultdict of int,
lines 404-406): an association list keyed by category, in first-seen
order, summing scores. -/
def categoryScoresAdd (acc : List (String × Nat)) (i : FraudIndicator) :
    List (String × Nat) :=
  match acc with
  | [] => [(i.category, i.score)]
  | (c, s) :: rest =>
      if c = i.category then (c, s + i.score) :: rest
      else (c, s) :: categoryScoresAdd rest i

/-- category_scores over a deduplicated indicator list. -/
def categoryScores (l : List FraudIndicator) : List (String × Nat) :=
  l.foldl categoryScoresAdd []

/-- Embeds the risk-level decision of analyze_contractor
(lines 408-421), given the two severity facts and the total score. -/
def riskLevelCode (hasCritical hasHigh : Bool) (total : Nat) : String :=
  if hasCritical ∨ 50 ≤ total then "CRITICAL"
  else if 35 ≤ total ∨ (hasHigh ∧ 25 ≤ total) then "HIGH"
  else if 20 ≤ total then "MEDIUM"
  else if 0 < total then "LOW"
  else "NONE"

/-- Decision procedure written from the words of the spec (section 4.2):
CRITICAL if any surviving indicator is CRITICAL severity OR total 50 or
more; else HIGH if total at least 35 OR (a HIGH-severity indicator
exists AND total at least 25); else MEDIUM if total at least 20; else
LOW if total positive; else NONE.  Kept separate from riskLevelCode so
that the two can be compared. -/
def riskLevelSpec (hasCritical hasHigh : Bool) (total : Nat) : String :=
  if hasCritical then "CRITICAL"
  else if 50 ≤ total then "CRITICAL"
  else if 35 ≤ total then "HIGH"
  else if hasHigh ∧ 25 ≤ total then "HIGH"
  else if 20 ≤ total then "MEDIUM"
  else if 0 < total then "LOW"
  else "NONE"

/-- Embeds ContractorRiskProfile (comprehensive_detector.py); the
analyzed_at timestamp is elided. -/
structure ContractorRiskProfile where
  uei : String
  legal_name : String
  indicators : List FraudIndicator
  total_score : Nat
  risk_level : String
  category_scores : List (String × Nat)
  summary : String
deriving Repr

/-- Embeds the aggregation tail of analyze_contractor (lines 390-446):
given the full collected indicator list (the output of all detector
categories for one contractor, in emission order), deduplicate by
(category, pattern_type), cap the summed score at 100, derive the risk
level and the summary, and build the profile.  The detector invocations
themselves depend on external data and are parameters of the claims. -/
def aggregateProfile (uei legal_name : String)
    (collected : List FraudIndicator) : ContractorRiskProfile :=
  let inds := dedupIndicators collected
  let total := min 100 (inds.map (·.score)).sum
  let cats := categoryScores inds
  let hasCritical := inds.any (fun i => i.severity = "CRITICAL")
  let hasHigh := inds.any (fun i => i.severity = "HIGH")
  let level := riskLevelCode hasCritical hasHigh total
  let criticalCount := (inds.filter (fun i => i.severity = "CRITICAL")).length
  let highCount := (inds.filter (fun i => i.severity = "HIGH")).length
  let catNames := cats.map (·.1)
  let summary :=
    if 0 < criticalCount then
      "CRITICAL: " ++ toString criticalCount ++ " critical issue(s) - " ++
        String.intercalate ", " catNames
    else if 0 < highCount then
      "HIGH RISK: " ++ toString highCount ++ " high-severity issue(s) in " ++
        toString catNames.length ++ " categories"
    else if inds ≠ [] then
      "FLAGGED: " ++ toString inds.length ++ " indicator(s) across " ++
        toString catNames.length ++ " categories"
    else "No significant fraud indicators detected"
  { uei := uei
    legal_name := legal_name
    indicators := inds
    total_score := total
    risk_level := level
    category_scores := cats
    summary := summary }

/-- The CRITICAL exact-identifier exclusion indicator built by
detect_exclusions (lines 244-256). -/
def exactExclusionIndicator : FraudIndicator :=
  { category := "EXCLUSION"
    pattern_type := "EXCLUDED_ENTITY"
    severity := "CRITICAL"
    score := 30 }

/-- The HIGH name-only exclusion indicator built by detect_exclusions
(lines 260-271). -/
def nameExclusionIndicator : FraudIndicator :=
  { category := "EXCLUSION"
    pattern_type := "EXCLUDED_ENTITY_NAME_MATCH"
    severity := "HIGH"
    score := 25 }

/-- Embeds detect_exclusions (lines 237-273).  The two LocalDataStore
calls are abstracted to their is_excluded booleans: excludedByUei is
check_exclusion(uei=...).is_excluded, excludedByName is
check_exclusion(name=legal_name).is_excluded.  The name-match indicator
is emitted only when the identifier check did not already match. -/
def detect_exclusions (excludedByUei excludedByName : Bool) :
    List FraudIndicator :=
  (if excludedByUei then [exactExclusionIndicator] else []) ++
  (if excludedByName ∧ ¬ excludedByUei then [nameExclusionIndicator] else [])

/-! Batch scanner model (daily_scan.py). -/

/-- Embeds the entity record fields the scanner reads (SAM bulk data
dict).  registration_date is the parsed YYYYMMDD date as a day number;
none embeds a missing field or a strptime failure (ValueError). -/
structure Entity where
  uei : String
  legal_name : String
  address : String
  state : String
  registration_date : Option Int
deriving DecidableEq, Repr

/-- Embeds the Contract dataclass fields (data_sources/usaspending.py)
read by the scanner and detectors.  start_date and end_date are parsed
day numbers, none embedding an empty or unparseable date string.
modification_count, base_exercised_options_value and
base_and_all_options_value embed the getattr(contract, name, 0)
accesses of detectors/modifications.py: the base Contract dataclass
does not declare them, and the Python or-chains collapse an absent
attribute and the value 0, so they are embedded directly as values with
0 meaning absent. -/
structure Contract where
  contract_id : String
  recipient_uei : String
  recipient_name : String
  agency : String
  total_obligation : ℚ
  start_date : Option Int
  end_date : Option Int
  modification_count : Nat
  base_exercised_options_value : ℚ
  base_and_all_options_value : ℚ
deriving DecidableEq, Repr

/-- Environment of external lookups the scanner depends on:
excluded uei embeds LocalDataStore.check_exclusion(uei=...).is_excluded,
entities uei embeds LocalDataStore.get_entity_by_uei (none for a missing
entity, the falsy {} of _get_entity_cached), and now is the current day
number used by datetime.now(). -/
structure ScanEnv where
  excluded : String → Bool
  entities : String → Option Entity
  now : Int

/-- Embeds check_registration_age (daily_scan.py lines 215-230): none
when the entity is missing, its registration_date is absent, or parsing
fails; otherwise days between now and the registration date. -/
def check_registration_age (env : ScanEnv) (uei : String) : Option Int :=
  match env.entities uei with
  | none => none
  | some e =>
      match e.registration_date with
      | none => none
      | some d => some (env.now - d)

/-- Lowercase a string characterwise, embedding str.lower(). -/
def strLower (s : String) : String :=
  String.mk (s.data.map Char.toLower)

/-- Uppercase a string characterwise, embedding str.upper(). -/
def strUpper (s : String) : String :=
  String.mk (s.data.map Char.toUpper)

/-- Strip whitespace from both ends, embedding str.strip(). -/
def strTrim (s : String) : String :=
  String.mk
    (((s.data.dropWhile Char.isWhitespace).reverse.dropWhile
        Char.isWhitespace).reverse)

/-- The virtual-office indicator substrings of check_virtual_office
(daily_scan.py lines 240-243). -/
def virtualOfficeIndicators : List String :=
  ["SUITE", "STE ", "STE.", "#", "UNIT", "PMB", "P.O. BOX", "PO BOX",
   "REGUS", "WEWORK", "SPACES", "EXECUTIVE SUITE", "VIRTUAL"]

/-- Substring containment on the character lists, embedding the Python
in operator on strings. -/
def strContains (haystack needle : String) : Bool :=
  decide (needle.toList <:+: haystack.toList)

/-- Embeds check_virtual_office (daily_scan.py lines 232-246): uppercase
the entity address and collect the indicator substrings it contains. -/
def check_virtual_office (env : ScanEnv) (uei : String) :
    Bool × List String :=
  match env.entities uei with
  | none => (false, [])
  | some e =>
      let address := strUpper e.address
      let found := virtualOfficeIndicators.filter (strContains address)
      (found.length > 0, found)

/-- Normalized address key of _build_address_index and
check_shared_address: address.lower().strip(). -/
def addressKey (address : String) : String :=
  strTrim (strLower address)

/-- The normalized key an identifier is indexed under: none when the
entity is unresolved or its address is empty (such an identifier is
never indexed). -/
def entityAddressKey (env : ScanEnv) (uei : String) : Option String :=
  match env.entities uei with
  | none => none
  | some e => if e.address = "" then none else some (addressKey e.address)

/-- Lookup in the address index (a Python dict embedded as an
association list in key insertion order). -/
def lookupIdx (idx : List (String × List String)) (k : String) :
    List String :=
  match idx with
  | [] => []
  | (k₁, l) :: rest => if k₁ = k then l else lookupIdx rest k

/-- Dict update of _build_address_index: append the identifier to the
list at the key, creating the entry at the end when the key is new. -/
def insertIdx (idx : List (String × List String)) (k u : String) :
    List (String × List String) :=
  match idx with
  | [] => [(k, [u])]
  | (k₁, l) :: rest =>
      if k₁ = k then (k₁, l ++ [u]) :: rest
      else (k₁, l) :: insertIdx rest k u

/-- The distinct recipient identifiers of a batch, skipping contracts
with an empty identifier: list(set(c.recipient_uei for c in contracts
if c.recipient_uei)) of _build_address_index, determinized to
first-occurrence order. -/
def batchUeis (contracts : List Contract) : List String :=
  ((contracts.filterMap fun c =>
      if c.recipient_uei = "" then none else some c.recipient_uei)).dedup

/-- One iteration of the _build_address_index loop: index the
identifier under its normalized key when it has one. -/
def indexStep (env : ScanEnv) (idx : List (String × List String))
    (u : String) : List (String × List String) :=
  match entityAddressKey env u with
  | none => idx
  | some k => insertIdx idx k u

/-- Embeds _build_address_index (daily_scan.py lines 254-281): for each
distinct identifier of the batch that resolves to an entity with a
nonempty address, append it to the list at its normalized key. -/
def buildAddressIndex (env : ScanEnv) (contracts : List Contract) :
    List (String × List String) :=
  (batchUeis contracts).foldl (indexStep env) []

/-- The list of other identifiers at the same normalized address, whose
length check_shared_address returns: [u for u in index[key] if u != uei]
(daily_scan.py line 304), empty when the entity is unresolved or its
address is empty. -/
def sharedAddressList (env : ScanEnv) (contracts : List Contract)
    (uei : String) : List String :=
  match entityAddressKey env uei with
  | none => []
  | some k => (lookupIdx (buildAddressIndex env contracts) k).filter
      (fun u => u ≠ uei)

/-- Embeds check_shared_address (daily_scan.py lines 283-309): the count
of other identifiers indexed at the same normalized key (0 for a
missing entity, an empty address, or an unindexed key). -/
def check_shared_address (env : ScanEnv) (contracts : List Contract)
    (uei : String) : Nat :=
  (sharedAddressList env contracts uei).length

/-- A per-contract flag of analyze_contract; the free-text description
and evidence strings are elided. -/
structure Flag where
  severity : String
  pattern : String
deriving DecidableEq, Repr

/-- Per-flag severity weights of analyze_contract (daily_scan.py
line 448); unknown severities weigh 0 via dict.get default. -/
def severityWeight (s : String) : Nat :=
  if s = "CRITICAL" then 25
  else if s = "HIGH" then 15
  else if s = "MEDIUM" then 10
  else if s = "LOW" then 5
  else 0

/-- Sum of per-flag severity weights. -/
def sumWeights (flags : List Flag) : Nat :=
  (flags.map (fun f => severityWeight f.severity)).sum

/-- Embeds the deep-analysis merge loop of analyze_contract
(daily_scan.py lines 421-433): fold the profile indicators, skipping a
pattern type already present in the accumulated fraud_patterns list,
otherwise appending a flag and recording the pattern. -/
def mergeDeep (flags : List Flag) (patterns : List String) :
    List FraudIndicator → List Flag × List String
  | [] => (flags, patterns)
  | i :: rest =>
      if i.pattern_type ∈ patterns then mergeDeep flags patterns rest
      else mergeDeep (flags ++ [{ severity := i.severity,
                                  pattern := i.pattern_type }])
        (patterns ++ [i.pattern_type]) rest

/-- The CRITICAL flag recorded on an exclusion match. -/
def exclusionCriticalFlag : Flag :=
  { severity := "CRITICAL", pattern := "EXCLUDED_ACTIVE_CONTRACT" }

/-- The exclusion-check flag block of analyze_contract (daily_scan.py
lines 330-341). -/
def exclusionFlags (exclusion_match : Bool) : List Flag :=
  if exclusion_match then [exclusionCriticalFlag] else []

/-- The registration-age flag block of analyze_contract (daily_scan.py
lines 344-360): HIGH under 90 days with a contract of at least one
million, else MEDIUM under 180 days with at least half a million. -/
def regAgeFlags : Option Int → ℚ → List Flag
  | some a, value =>
      if a < 90 ∧ 1000000 ≤ value then
        [{ severity := "HIGH", pattern := "RAPID_REGISTRATION_LARGE_AWARD" }]
      else if a < 180 ∧ 500000 ≤ value then
        [{ severity := "MEDIUM",
           pattern := "RAPID_REGISTRATION_LARGE_AWARD" }]
      else []
  | none, _ => []

/-- The virtual-office flag block of analyze_contract (daily_scan.py
lines 363-371). -/
def virtualFlags (is_virtual : Bool) : List Flag :=
  if is_virtual then
    [{ severity := "LOW", pattern := "VIRTUAL_OFFICE_INDICATORS" }]
  else []

/-- The shared-address flag block of analyze_contract (daily_scan.py
lines 374-390): HIGH at 5 or more other contractors, MEDIUM at 3 or
4. -/
def sharedFlags (shared_count : Nat) : List Flag :=
  if 5 ≤ shared_count then
    [{ severity := "HIGH", pattern := "ADDRESS_CLUSTER_CONTRACTS" }]
  else if 3 ≤ shared_count then
    [{ severity := "MEDIUM", pattern := "ADDRESS_CLUSTER_CONTRACTS" }]
  else []

/-- The fast-check flag list of analyze_contract, in emission order:
exclusion, registration age, virtual office, shared address. -/
def fastFlags (env : ScanEnv) (contracts : List Contract) (c : Contract) :
    List Flag :=
  exclusionFlags (env.excluded c.recipient_uei) ++
  regAgeFlags (check_registration_age env c.recipient_uei)
    c.total_obligation ++
  virtualFlags (check_virtual_office env c.recipient_uei).1 ++
  sharedFlags (check_shared_address env contracts c.recipient_uei)

/-- The fraud_patterns list accumulated by the fast checks: the lines
appending to it run only in the exclusion branch, the HIGH
registration branch and the HIGH shared-address branch. -/
def fastPatterns (env : ScanEnv) (contracts : List Contract)
    (c : Contract) : List String :=
  (if env.excluded c.recipient_uei then ["EXCLUDED_ACTIVE_CONTRACT"]
   else []) ++
  (match check_registration_age env c.recipient_uei with
   | some a =>
       if a < 90 ∧ 1000000 ≤ c.total_obligation then
         ["RAPID_REGISTRATION_LARGE_AWARD"]
       else []
   | none => []) ++
  (if 5 ≤ check_shared_address env contracts c.recipient_uei then
     ["ADDRESS_CLUSTER_CONTRACTS"]
   else [])

/-- Intermediate state of analyze_contract after the flag-collection
phase, before scoring. -/
structure PreAlert where
  exclusion_match : Bool
  flags : List Flag
  fraud_patterns : List String
  registration_age_days : Option Int
  virtual_office : Bool
  shared_address_count : Nat
  category_scores : List (String × Nat)
deriving Repr

/-- Embeds the flag-collection phase of analyze_contract (daily_scan.py
lines 319-445): the four fast checks, then (when a cached deep risk
profile is available, deepProfile none embedding fast mode or a failed
deep analysis) the merge of the profile indicators. -/
def collectFlags (env : ScanEnv) (contracts : List Contract)
    (deepProfile : Option ContractorRiskProfile) (c : Contract) :
    PreAlert :=
  let merged :=
    match deepProfile with
    | none => (fastFlags env contracts c, fastPatterns env contracts c)
    | some rp =>
        mergeDeep (fastFlags env contracts c)
          (fastPatterns env contracts c) rp.indicators
  { exclusion_match := env.excluded c.recipient_uei
    flags := merged.1
    fraud_patterns := merged.2
    registration_age_days := check_registration_age env c.recipient_uei
    virtual_office := (check_virtual_office env c.recipient_uei).1
    shared_address_count := check_shared_address env contracts c.recipient_uei
    category_scores :=
      match deepProfile with
      | none => []
      | some rp => rp.category_scores }

/-- Embeds FraudAlert (daily_scan.py); the free-text fields are
elided. -/
structure FraudAlert where
  contract_id : String
  recipient_name : String
  recipient_uei : String
  contract_value : ℚ
  agency : String
  risk_score : Nat
  risk_level : String
  fraud_patterns : List String
  flags : List Flag
  exclusion_match : Bool
  registration_age_days : Option Int
  virtual_office : Bool
  shared_address_count : Nat
  category_scores : List (String × Nat)
deriving DecidableEq, Repr

/-- Embeds the scoring and classification tail of analyze_contract
(daily_scan.py lines 447-495): severity-weighted score capped at 100,
the tier decision, and none when no tier applies (score 0). -/
def finalizeAlert (c : Contract) (p : PreAlert) : Option FraudAlert :=
  let risk_score := min (sumWeights p.flags) 100
  let mk (level : String) : FraudAlert :=
    { contract_id := c.contract_id
      recipient_name := c.recipient_name
      recipient_uei := c.recipient_uei
      contract_value := c.total_obligation
      agency := c.agency
      risk_score := risk_score
      risk_level := level
      fraud_patterns := p.fraud_patterns
      flags := p.flags
      exclusion_match := p.exclusion_match
      registration_age_days := p.registration_age_days
      virtual_office := p.virtual_office
      shared_address_count := p.shared_address_count
      category_scores := p.category_scores }
  if 50 ≤ risk_score ∨ p.exclusion_match then some (mk "CRITICAL")
  else if 30 ≤ risk_score then some (mk "HIGH")
  else if 15 ≤ risk_score then some (mk "MEDIUM")
  else if 0 < risk_score then some (mk "LOW")
  else none

/-- Embeds analyze_contract (daily_scan.py lines 311-495): skip a
contract with no identifier, collect the flags, then score and
classify. -/
def analyze_contract (env : ScanEnv) (contracts : List Contract)
    (deepProfile : Option ContractorRiskProfile) (c : Contract) :
    Option FraudAlert :=
  if c.recipient_uei = "" then none
  else finalizeAlert c (collectFlags env contracts deepProfile c)

/-! Benford distribution check (detectors/benford.py). -/

/-- Structurally recursive leading-decimal-digit loop: divide by 10
until under 10, with enough fuel. -/
def leadDigitAux : Nat → Nat → Nat
  | 0, n => n
  | fuel + 1, n => if n < 10 then n else leadDigitAux fuel (n / 10)

/-- Leading decimal digit of a positive natural number (n itself is
always enough fuel). -/
def natLeadDigit (n : Nat) : Nat :=
  leadDigitAux n n

/-- Embeds get_first_digit (benford.py lines 43-52): the first
significant decimal digit of a positive amount, none for a non-positive
one.  For a positive rational a/b the leading digit is computed as the
leading digit of the natural number (a * 10 ^ b) / b: since b < 10 ^ b,
this scales the value by a power of ten (leaving the leading digit
unchanged) and then truncates only trailing digits.  Mirroring the
falsiness test if digit of the caller, a computed 0 digit is mapped to
none (it cannot occur for a positive amount). -/
def get_first_digit (q : ℚ) : Option Nat :=
  if q ≤ 0 then none
  else
    let d := natLeadDigit (q.num.toNat * 10 ^ q.den / q.den)
    if d = 0 then none else some d

/-- The expected Benford frequencies (benford.py lines 21-24), as exact
rationals. -/
def BENFORD_EXPECTED (d : Nat) : ℚ :=
  if d = 1 then 301/1000 else if d = 2 then 176/1000
  else if d = 3 then 125/1000 else if d = 4 then 97/1000
  else if d = 5 then 79/1000 else if d = 6 then 67/1000
  else if d = 7 then 58/1000 else if d = 8 then 51/1000
  else if d = 9 then 46/1000 else 0

/-- Chi-square critical value for df=8 at p=0.05 (benford.py
line 27). -/
def CHI_SQUARE_CRITICAL : ℚ := 1551/100

/-- The digits 1..9 iterated by the analysis loops (range(1, 10)). -/
def benfordDigits : List Nat := [1, 2, 3, 4, 5, 6, 7, 8, 9]

/-- Observed frequency of a digit among the extracted first digits. -/
def observedFreq (digits : List Nat) (d : Nat) : ℚ :=
  (digits.count d : ℚ) / (digits.length : ℚ)

/-- Embeds the chi-square accumulation of analyze_benfords_law
(lines 89-94): sum over digits 1..9 of (obs - exp)^2 / exp * total. -/
def chiSquareStat (digits : List Nat) : ℚ :=
  benfordDigits.foldl
    (fun acc d =>
      acc + (observedFreq digits d - BENFORD_EXPECTED d) ^ 2
        / BENFORD_EXPECTED d * (digits.length : ℚ))
    0

/-- Embeds the most-deviant-digit tracking of analyze_benfords_law
(lines 96-100): fold over digits 1..9 carrying (max deviation, digit),
updating only on a strictly larger absolute deviation, starting from
(0, 1). -/
def mostDeviantCalc (digits : List Nat) : ℚ × Nat :=
  benfordDigits.foldl
    (fun st d =>
      let dev := |observedFreq digits d - BENFORD_EXPECTED d|
      if st.1 < dev then (dev, d) else st)
    (0, 1)

/-- Embeds BenfordAnomaly (benford.py lines 30-40).  The observed and
expected distribution dicts are recoverable from the digit list and
BENFORD_EXPECTED; deviation_over embeds the branch of the description
construction (observed above expected), meaningful when anomalous. -/
structure BenfordAnomaly where
  chi_square : ℚ
  p_value_approx : String
  is_anomalous : Bool
  sample_size : Nat
  most_deviant_digit : Nat
  deviation_over : Bool
deriving DecidableEq, Repr

/-- The BenfordAnomaly record analyze_benfords_law builds from the
extracted first digits (benford.py lines 84-135). -/
def mkBenfordAnomaly (first_digits : List Nat) : BenfordAnomaly :=
  let chi := chiSquareStat first_digits
  let most := (mostDeviantCalc first_digits).2
  { chi_square := chi
    p_value_approx :=
      if 2612/100 < chi then "< 0.001"
      else if 2009/100 < chi then "< 0.01"
      else if CHI_SQUARE_CRITICAL < chi then "< 0.05"
      else "> 0.05"
    is_anomalous := CHI_SQUARE_CRITICAL < chi
    sample_size := first_digits.length
    most_deviant_digit := most
    deviation_over := BENFORD_EXPECTED most < observedFreq first_digits most }

/-- Embeds analyze_benfords_law (benford.py lines 55-135): extract the
first digits, return none below the sample minimum, otherwise build the
anomaly record. -/
def analyze_benfords_law (amounts : List ℚ) (min_samples : Nat) :
    Option BenfordAnomaly :=
  let first_digits := amounts.filterMap get_first_digit
  if first_digits.length < min_samples then none
  else some (mkBenfordAnomaly first_digits)

/-- The fraud-indicator dict returned by analyze_contractor_amounts,
with its numeric evidence fields. -/
structure BenfordFinding where
  pattern_type : String
  severity : String
  score : Nat
  chi_square : ℚ
  p_value : String
  sample_size : Nat
  most_deviant_digit : Nat
  deviation_over : Bool
deriving DecidableEq, Repr

/-- The positive contract amounts of one contractor, as filtered by
analyze_contractor_amounts (benford.py lines 144-145). -/
def contractorAmounts (contracts : List Contract)
    (contractor_uei : String) : List ℚ :=
  contracts.filterMap fun c =>
    if c.recipient_uei = contractor_uei ∧ 0 < c.total_obligation then
      some c.total_obligation
    else none

/-- The MEDIUM score-10 indicator dict analyze_contractor_amounts
builds from an anomalous result (benford.py lines 152-166). -/
def mkBenfordFinding (r : BenfordAnomaly) : BenfordFinding :=
  { pattern_type := "BENFORDS_LAW_VIOLATION"
    severity := "MEDIUM"
    score := 10
    chi_square := r.chi_square
    p_value := r.p_value_approx
    sample_size := r.sample_size
    most_deviant_digit := r.most_deviant_digit
    deviation_over := r.deviation_over }

/-- Embeds analyze_contractor_amounts (benford.py lines 138-168):
return none below 30 amounts, otherwise run analyze_benfords_law (with
its default minimum of 50 samples) and emit the MEDIUM score-10
indicator exactly when the result is anomalous. -/
def analyze_contractor_amounts (contracts : List Contract)
    (contractor_uei : String) : Option BenfordFinding :=
  let amounts := contractorAmounts contracts contractor_uei
  if amounts.length < 30 then none
  else
    match analyze_benfords_law amounts 50 with
    | none => none
    | some r => if r.is_anomalous then some (mkBenfordFinding r) else none

/-! Contract-splitting detector (detectors/pricing.py). -/

/-- The acquisition-regulation threshold table (pricing.py
lines 24-30), in dict insertion order. -/
def THRESHOLDS : List (String × Nat) :=
  [("micro_purchase", 10000),
   ("simplified_acquisition", 250000),
   ("commercial_item", 750000),
   ("cost_accounting", 7500000),
   ("enhanced_oversight", 1000000)]

/-- The contracts of the contractor and agency inside the rolling
lookback window, as filtered by detect_contract_splitting
(pricing.py lines 121-130); a contract whose award date fails to parse
is skipped. -/
def relevantContracts (contracts : List Contract)
    (contractor_uei agency : String) (now : Int)
    (lookback_days : Int) : List Contract :=
  contracts.filter fun c =>
    c.recipient_uei = contractor_uei ∧ c.agency = agency ∧
      c.start_date.any (fun d => now - lookback_days ≤ d) = true

/-- The relevant contracts whose amount is between 85 percent
(inclusive) and 99.9 percent (exclusive) of a threshold value
(pricing.py lines 137-141). -/
def nearThreshold (relevant : List Contract) (threshold_value : Nat) :
    List Contract :=
  relevant.filter fun c =>
    (threshold_value : ℚ) * (85/100) ≤ c.total_obligation ∧
      c.total_obligation < (threshold_value : ℚ) * (999/1000)

/-- Sum of consecutive differences of a list of day numbers, embedding
sum((dates[i+1] - dates[i]).days for i in range(len(dates)-1)). -/
def gapSum : List Int → Int
  | a :: b :: rest => (b - a) + gapSum (b :: rest)
  | _ => 0

/-- Insertion into a sorted list of day numbers. -/
def insSorted (x : Int) : List Int → List Int
  | [] => [x]
  | y :: rest => if x ≤ y then x :: y :: rest else y :: insSorted x rest

/-- Insertion sort, embedding dates.sort() of pricing.py line 156. -/
def sortDates (l : List Int) : List Int :=
  l.foldr insSorted []

/-- The average inter-award gap in days of a group of contracts
(pricing.py lines 148-158), as an exact rational. -/
def averageGapDays (group : List Contract) : ℚ :=
  let dates := sortDates (group.filterMap (·.start_date))
  (gapSum dates : ℚ) / ((dates.length : ℚ) - 1)

/-- The CONTRACT_SPLITTING indicator dict (pricing.py lines 161-176),
with its numeric evidence fields; the contract_ids evidence sample and
free text are elided. -/
structure SplitIndicator where
  pattern_type : String
  severity : String
  score : Nat
  threshold_name : String
  threshold_value : Nat
  contract_count : Nat
  average_value : ℚ
  total_value : ℚ
  average_gap_days : ℚ
deriving DecidableEq, Repr

/-- The per-threshold body of the detect_contract_splitting loop
(pricing.py lines 136-176): require at least 3 near-threshold
contracts and at least 2 parsed dates, then flag when the average gap
is under 45 days. -/
def splitCheck (relevant : List Contract) (threshold_name : String)
    (threshold_value : Nat) : Option SplitIndicator :=
  let near := nearThreshold relevant threshold_value
  if near.length < 3 then none
  else
    let total_value := (near.map (·.total_obligation)).sum
    let dates := near.filterMap (·.start_date)
    if dates.length < 2 then none
    else
      let avg_gap := averageGapDays near
      if avg_gap < 45 then
        some
          { pattern_type := "CONTRACT_SPLITTING"
            severity := "HIGH"
            score := 20
            threshold_name := threshold_name
            threshold_value := threshold_value
            contract_count := near.length
            average_value := total_value / (near.length : ℚ)
            total_value := total_value
            average_gap_days := avg_gap }
      else none

/-- Embeds detect_contract_splitting (pricing.py lines 104-178): filter
to the contractor, agency and lookback window, require at least 3
relevant contracts, then check every regulatory threshold. -/
def detect_contract_splitting (contracts : List Contract)
    (contractor_uei agency : String) (now : Int)
    (lookback_days : Int) : List SplitIndicator :=
  let relevant :=
    relevantContracts contracts contractor_uei agency now lookback_days
  if relevant.length < 3 then []
  else THRESHOLDS.filterMap fun t => splitCheck relevant t.1 t.2

/-! Modification-growth detectors (detectors/modifications.py). -/

/-- An indicator dict emitted by the modifications module, with its
numeric evidence carried as a (key, value) list mirroring the Python
evidence dict. -/
structure ModIndicator where
  pattern_type : String
  severity : String
  score : Nat
  contract_id : String
  evidence : List (String × ℚ)
deriving DecidableEq, Repr

/-- Embeds detect_excessive_modifications (modifications.py
lines 34-63): more than 2 modifications per month with at least 6
modifications. -/
def detect_excessive_modifications (modification_count : Nat)
    (contract_duration_months : Int) (contract_value : ℚ) :
    Option ModIndicator :=
  if contract_duration_months ≤ 0 then none
  else
    let mods_per_month :=
      (modification_count : ℚ) / (contract_duration_months : ℚ)
    if 2 < mods_per_month ∧ 6 ≤ modification_count then
      some
        { pattern_type := "EXCESSIVE_MODIFICATIONS"
          severity := "MEDIUM"
          score := 10
          contract_id := ""
          evidence :=
            [("modification_count", (modification_count : ℚ)),
             ("contract_duration_months", (contract_duration_months : ℚ)),
             ("modifications_per_month", mods_per_month),
             ("contract_value", contract_value)] }
    else none

/-- The original contract value derived by
analyze_contractor_modifications (lines 301-305): the first nonzero of
base_exercised_options_value and base_and_all_options_value, falling
back to the current value. -/
def originalValueOf (c : Contract) : ℚ :=
  let chain :=
    if c.base_exercised_options_value ≠ 0 then
      c.base_exercised_options_value
    else if c.base_and_all_options_value ≠ 0 then
      c.base_and_all_options_value
    else 0
  if chain = 0 then c.total_obligation else chain

/-- The contract duration in months derived by
analyze_contractor_modifications (lines 307-316): floor of days over
30, at least 1, defaulting to 12 when either date is missing or fails
to parse. -/
def durationMonthsOf (c : Contract) : Int :=
  match c.start_date, c.end_date with
  | some s, some e => max 1 (Int.fdiv (e - s) 30)
  | _, _ => 12

/-- The SIGNIFICANT_VALUE_GROWTH indicators of one contract
(analyze_contractor_modifications lines 325-340): emitted when the
original value is positive and the current value exceeds 1.5 times it;
MEDIUM score 10 below 200 percent growth, HIGH score 15 from 200
percent up. -/
def valueGrowthIndicators (c : Contract) : List ModIndicator :=
  let original := originalValueOf c
  let current := c.total_obligation
  if 0 < original ∧ original * (3/2) < current then
    let growth := (current - original) / original
    [{ pattern_type := "SIGNIFICANT_VALUE_GROWTH"
       severity := if growth < 2 then "MEDIUM" else "HIGH"
       score := if growth < 2 then 10 else 15
       contract_id := c.contract_id
       evidence :=
         [("original_value", original),
          ("current_value", current),
          ("growth_percentage", growth * 100)] }]
  else []

/-- The excessive-modification indicators of one contract
(analyze_contractor_modifications lines 318-323), guarded on a positive
modification count and tagged with the contract id. -/
def excessiveModIndicators (c : Contract) : List ModIndicator :=
  if 0 < c.modification_count then
    match detect_excessive_modifications c.modification_count
        (durationMonthsOf c) c.total_obligation with
    | some r => [{ r with contract_id := c.contract_id }]
    | none => []
  else []

/-- Embeds analyze_contractor_modifications (modifications.py
lines 288-342): per contract of the contractor, the excessive
modification check then the value-growth check. -/
def analyze_contractor_modifications (contracts : List Contract)
    (contractor_uei : String) : List ModIndicator :=
  (contracts.filter (fun c => c.recipient_uei = contractor_uei)).flatMap
    fun c => excessiveModIndicators c ++ valueGrowthIndicators c

/-- Maximum of a list of rationals, embedding the Python max of a
nonempty list (0 on the empty list, unreachable in the caller). -/
def listMax : List ℚ → ℚ
  | [] => 0
  | a :: rest => rest.foldl max a

/-- Embeds detect_value_growth_pattern (modifications.py lines 66-125).
The modification_history argument is the list of amount values of the
history dicts (m.get(possibly absent amount, 0) embedded as the value
itself, 0 for an absent key).  The concentration rule
(CONCENTRATED_MOD_GROWTH, HIGH score 15) is checked first and wins
over the extreme-growth rule (EXTREME_VALUE_GROWTH, HIGH score 20,
growth above 200 percent). -/
def detect_value_growth_pattern (original_value current_value : ℚ)
    (modification_history : List ℚ) : Option ModIndicator :=
  if original_value ≤ 0 ∨ modification_history = [] then none
  else
    let total_growth := (current_value - original_value) / original_value
    let concentrated : Option ModIndicator :=
      if 2 ≤ modification_history.length then
        let total_mods := modification_history.sum
        if 0 < total_mods then
          let max_mod := listMax modification_history
          let concentration := max_mod / total_mods
          if 7/10 < concentration ∧ 1/2 < total_growth then
            some
              { pattern_type := "CONCENTRATED_MOD_GROWTH"
                severity := "HIGH"
                score := 15
                contract_id := ""
                evidence :=
                  [("original_value", original_value),
                   ("current_value", current_value),
                   ("total_growth", total_growth),
                   ("max_modification", max_mod),
                   ("concentration", concentration)] }
          else none
        else none
      else none
    match concentrated with
    | some r => some r
    | none =>
        if 2 < total_growth then
          some
            { pattern_type := "EXTREME_VALUE_GROWTH"
              severity := "HIGH"
              score := 20
              contract_id := ""
              evidence :=
                [("original_value", original_value),
                 ("current_value", current_value),
                 ("growth_percentage", total_growth * 100),
                 ("modification_count",
                  (modification_history.length : ℚ))] }
        else none

/-! Concrete fixture inputs used by counterexamples and witnesses. -/

/-- A baseline contract value with neutral fields. -/
def baseContract : Contract :=
  { contract_id := ""
    recipient_uei := ""
    recipient_name := ""
    agency := ""
    total_obligation := 0
    start_date := none
    end_date := none
    modification_count := 0
    base_exercised_options_value := 0
    base_and_all_options_value := 0 }

/-- A batch of 30 contracts of one contractor whose amounts all lead
with digit 9: uniform in the extreme, far from the Benford
distribution. -/
def benfordBatch : List Contract :=
  List.replicate 30
    { baseContract with
        contract_id := "B"
        recipient_uei := "UEI9"
        total_obligation := 9 }

/-- Three contracts of contractor X to one agency at 94 to 98 percent
of the 250000 threshold, awarded on days 980, 990 and 1000. -/
def splitBatchClose : List Contract :=
  [{ baseContract with
       contract_id := "S1"
       recipient_uei := "X"
       agency := "AG"
       total_obligation := 235000
       start_date := some 980 },
   { baseContract with
       contract_id := "S2"
       recipient_uei := "X"
       agency := "AG"
       total_obligation := 240000
       start_date := some 990 },
   { baseContract with
       contract_id := "S3"
       recipient_uei := "X"
       agency := "AG"
       total_obligation := 245000
       start_date := some 1000 }]

/-- The same three contracts spaced 200 days apart (days 600, 800,
1000). -/
def splitBatchSpread : List Contract :=
  [{ baseContract with
       contract_id := "S1"
       recipient_uei := "X"
       agency := "AG"
       total_obligation := 235000
       start_date := some 600 },
   { baseContract with
       contract_id := "S2"
       recipient_uei := "X"
       agency := "AG"
       total_obligation := 240000
       start_date := some 800 },
   { baseContract with
       contract_id := "S3"
       recipient_uei := "X"
       agency := "AG"
       total_obligation := 245000
       start_date := some 1000 }]

/-- A contract whose value grew from an original 100 to a current 250:
growth of 150 percent, above 100 percent and below 200 percent. -/
def growthContract : Contract :=
  { baseContract with
      contract_id := "K1"
      recipient_uei := "UG"
      total_obligation := 250
      base_exercised_options_value := 100 }

/-- An entity at a shared street address. -/
def entA : Entity :=
  { uei := "A"
    legal_name := "Alpha LLC"
    address := "123 Main St"
    state := "CA"
    registration_date := none }

/-- A second entity whose raw address differs only by case and
surrounding whitespace, so it normalizes to the same key. -/
def entB : Entity :=
  { uei := "B"
    legal_name := "Beta LLC"
    address := " 123 MAIN ST "
    state := "CA"
    registration_date := none }

/-- A scan environment resolving exactly the two entities above, with
nobody excluded. -/
def envW : ScanEnv :=
  { excluded := fun _ => false
    entities := fun u =>
      if u = "A" then some entA
      else if u = "B" then some entB
      else none
    now := 0 }

/-- A two-contract batch, one contract per entity. -/
def addrBatch : List Contract :=
  [{ baseContract with contract_id := "A1", recipient_uei := "A" },
   { baseContract with contract_id := "B1", recipient_uei := "B" }]

/-- A scan environment with contractor A on the exclusion list and no
resolvable entities. -/
def envX : ScanEnv :=
  { excluded := fun u => u = "A"
    entities := fun _ => none
    now := 0 }

/-- A contract of contractor A. -/
def contractA : Contract :=
  { baseContract with contract_id := "A1", recipient_uei := "A" }

/-- The alert analyze_contract produces for contractA under envX: the
exclusion flag alone, score 25, CRITICAL by the exclusion override. -/
def alertA : FraudAlert :=
  { contract_id := "A1"
    recipient_name := ""
    recipient_uei := "A"
    contract_value := 0
    agency := ""
    risk_score := 25
    risk_level := "CRITICAL"
    fraud_patterns := ["EXCLUDED_ACTIVE_CONTRACT"]
    flags := [{ severity := "CRITICAL", pattern := "EXCLUDED_ACTIVE_CONTRACT" }]
    exclusion_match := true
    registration_age_days := none
    virtual_office := false
    shared_address_count := 0
    category_scores := [] }

/-! Helper lemmas about the deduplication pass. -/

theorem dedupGo_append_single (i : FraudIndicator)
    (l : List FraudIndicator) :
    ∀ seen : List (String × String),
    dedupGo seen (l ++ [i]) =
      dedupGo seen l ++
        (if dedupKey i ∈ seen ∨ dedupKey i ∈ l.map dedupKey then []
         else [i]) := by
  induction l with
  | nil =>
      intro seen
      simp [dedupGo]
  | cons j rest ih =>
      intro seen
      by_cases h : dedupKey j ∈ seen
      · have hcond :
            (dedupKey i ∈ seen ∨ dedupKey i ∈ (j :: rest).map dedupKey) ↔
            (dedupKey i ∈ seen ∨ dedupKey i ∈ rest.map dedupKey) := by
          simp only [List.map_cons, List.mem_cons]
          constructor
          · rintro (h₁ | h₂ | h₃)
            · exact Or.inl h₁
            · exact Or.inl (h₂ ▸ h)
            · exact Or.inr h₃
          · rintro (h₁ | h₂)
            · exact Or.inl h₁
            · exact Or.inr (Or.inr h₂)
        simp only [List.cons_append, List.append_eq, dedupGo, if_pos h, ih seen, hcond]
      · have hcond :
            (dedupKey i ∈ dedupKey j :: seen ∨
              dedupKey i ∈ rest.map dedupKey) ↔
            (dedupKey i ∈ seen ∨ dedupKey i ∈ (j :: rest).map dedupKey) := by
          simp only [List.map_cons, List.mem_cons]
          tauto
        simp only [List.cons_append, List.append_eq, dedupGo, if_neg h,
          ih (dedupKey j :: seen), hcond]

theorem dedupGo_drop_dup (j : FraudIndicator) (l₂ : List FraudIndicator) :
    ∀ (l₁ : List FraudIndicator) (seen : List (String × String)),
    (dedupKey j ∈ seen ∨ dedupKey j ∈ l₁.map dedupKey) →
    dedupGo seen (l₁ ++ j :: l₂) = dedupGo seen (l₁ ++ l₂) := by
  intro l₁
  induction l₁ with
  | nil =>
      intro seen h
      have hj : dedupKey j ∈ seen := by simpa using h
      simp [dedupGo, hj]
  | cons k rest ih =>
      intro seen h
      by_cases hk : dedupKey k ∈ seen
      · have h₂ : dedupKey j ∈ seen ∨ dedupKey j ∈ rest.map dedupKey := by
          rcases h with h | h
          · exact Or.inl h
          · simp only [List.map_cons, List.mem_cons] at h
            rcases h with h | h
            · exact Or.inl (h ▸ hk)
            · exact Or.inr h
        simp only [List.cons_append, List.append_eq, dedupGo, if_pos hk, ih seen h₂]
      · have h₂ : dedupKey j ∈ dedupKey k :: seen ∨
            dedupKey j ∈ rest.map dedupKey := by
          simp only [List.map_cons, List.mem_cons] at h
          simp only [List.mem_cons]
          tauto
        simp only [List.cons_append, List.append_eq, dedupGo, if_neg hk,
          ih (dedupKey k :: seen) h₂]

theorem dedupGo_keys_nodup :
    ∀ (l : List FraudIndicator) (seen : List (String × String)),
    ((dedupGo seen l).map dedupKey).Nodup ∧
      ∀ k ∈ (dedupGo seen l).map dedupKey, k ∉ seen := by
  intro l
  induction l with
  | nil => intro seen; simp [dedupGo]
  | cons i rest ih =>
      intro seen
      by_cases h : dedupKey i ∈ seen
      · simpa [dedupGo, h] using ih seen
      · have ihr := ih (dedupKey i :: seen)
        simp only [dedupGo, if_neg h, List.map_cons, List.nodup_cons,
          List.mem_cons]
        refine ⟨⟨fun hmem => ?_, ihr.1⟩, ?_⟩
        · exact (ihr.2 _ hmem) (List.mem_cons_self _ _)
        · rintro k (rfl | hk)
          · exact h
          · intro hks
            exact (ihr.2 k hk) (List.mem_cons_of_mem _ hks)

/-- The indicators field of the aggregated profile is the deduplicated
collected list. -/
theorem aggregate_indicators (u n : String) (l : List FraudIndicator) :
    (aggregateProfile u n l).indicators = dedupIndicators l := rfl

/-- The total score field of the aggregated profile. -/
theorem aggregate_total (u n : String) (l : List FraudIndicator) :
    (aggregateProfile u n l).total_score =
      min 100 ((dedupIndicators l).map (·.score)).sum := rfl

/-- The risk level field of the aggregated profile. -/
theorem aggregate_level (u n : String) (l : List FraudIndicator) :
    (aggregateProfile u n l).risk_level =
      riskLevelCode
        ((dedupIndicators l).any (fun i => i.severity = "CRITICAL"))
        ((dedupIndicators l).any (fun i => i.severity = "HIGH"))
        (min 100 ((dedupIndicators l).map (·.score)).sum) := rfl

/-- The ordered tier decision of the code agrees with the decision
written from the words of the spec, and resolves the boundary totals as
the spec states them. -/
theorem riskTier_facts (hc hh : Bool) (t : Nat) :
    riskLevelCode hc hh t = riskLevelSpec hc hh t ∧
    (hc = false →
      (t = 19 → riskLevelCode hc hh t = "LOW") ∧
      (t = 20 → riskLevelCode hc hh t = "MEDIUM") ∧
      (hh = false → t = 34 → riskLevelCode hc hh t = "MEDIUM") ∧
      (t = 35 → riskLevelCode hc hh t = "HIGH") ∧
      (t = 49 → riskLevelCode hc hh t = "HIGH")) ∧
    (t = 50 → riskLevelCode hc hh t = "CRITICAL") := by
  refine ⟨?_, ?_, ?_⟩
  · cases hc <;> cases hh <;>
      simp only [riskLevelCode, riskLevelSpec] <;>
      by_cases h50 : 50 ≤ t <;> by_cases h35 : 35 ≤ t <;>
      by_cases h25 : 25 ≤ t <;> by_cases h20 : 20 ≤ t <;>
      by_cases h0 : 0 < t <;>
      simp [h50, h35, h25, h20, h0]
  · rintro rfl
    refine ⟨?_, ?_, ?_, ?_, ?_⟩
    · rintro rfl; cases hh <;> decide
    · rintro rfl; cases hh <;> decide
    · rintro rfl rfl; decide
    · rintro rfl; cases hh <;> decide
    · rintro rfl; cases hh <;> decide
  · rintro rfl; cases hc <;> cases hh <;> decide

/-- C1: for every contractor analysis, the RiskProfile total_score
equals min(100, sum of scores over the deduplicated indicator set); it
is monotonic non-decreasing as indicators are added to the collected
list and never exceeds 100. -/
theorem claim_C1_total_score (u n : String) (l : List FraudIndicator)
    (i : FraudIndicator) :
    (aggregateProfile u n l).indicators = dedupIndicators l ∧
    (aggregateProfile u n l).total_score =
      min 100 ((dedupIndicators l).map (·.score)).sum ∧
    (aggregateProfile u n l).total_score ≤ 100 ∧
    (aggregateProfile u n l).total_score ≤
      (aggregateProfile u n (l ++ [i])).total_score := by
  refine ⟨rfl, rfl, Nat.min_le_left _ _, ?_⟩
  rw [aggregate_total, aggregate_total]
  refine min_le_min (le_refl 100) ?_
  unfold dedupIndicators
  rw [dedupGo_append_single i l []]
  split
  · simp
  · simp

/-- C2: the aggregated risk level is exactly the ordered decision of
the spec (CRITICAL on any CRITICAL indicator or total at least 50, then
HIGH, MEDIUM, LOW, NONE), and the boundary totals resolve as stated:
19 to LOW, 20 to MEDIUM, 34 with no HIGH indicator to MEDIUM, 35 to
HIGH, 49 to HIGH, 50 to CRITICAL (the sub-50 boundaries under no
CRITICAL-severity indicator, which would take the first branch). -/
theorem claim_C2_risk_tier (u n : String) (l : List FraudIndicator) :
    ((aggregateProfile u n l).risk_level =
      riskLevelSpec
        ((aggregateProfile u n l).indicators.any
          (fun i => i.severity = "CRITICAL"))
        ((aggregateProfile u n l).indicators.any
          (fun i => i.severity = "HIGH"))
        (aggregateProfile u n l).total_score) ∧
    (((aggregateProfile u n l).indicators.any
        (fun i => i.severity = "CRITICAL")) = false →
      ((aggregateProfile u n l).total_score = 19 →
        (aggregateProfile u n l).risk_level = "LOW") ∧
      ((aggregateProfile u n l).total_score = 20 →
        (aggregateProfile u n l).risk_level = "MEDIUM") ∧
      (((aggregateProfile u n l).indicators.any
          (fun i => i.severity = "HIGH")) = false →
        (aggregateProfile u n l).total_score = 34 →
        (aggregateProfile u n l).risk_level = "MEDIUM") ∧
      ((aggregateProfile u n l).total_score = 35 →
        (aggregateProfile u n l).risk_level = "HIGH") ∧
      ((aggregateProfile u n l).total_score = 49 →
        (aggregateProfile u n l).risk_level = "HIGH")) ∧
    ((aggregateProfile u n l).total_score = 50 →
      (aggregateProfile u n l).risk_level = "CRITICAL") := by
  rw [aggregate_indicators, aggregate_total, aggregate_level]
  exact riskTier_facts _ _ _

/-- Witness for C2 at a concrete input: one indicator list with a
single LOW indicator of score 19 resolves to LOW through the theorem. -/
theorem claim_C2_risk_tier_witness :
    (aggregateProfile "U" "N"
      [{ category := "PRICING", pattern_type := "P", severity := "LOW",
         score := 19 }]).risk_level = "LOW" :=
  ((claim_C2_risk_tier "U" "N"
    [{ category := "PRICING", pattern_type := "P", severity := "LOW",
       score := 19 }]).2.1 (by decide)).1 (by decide)

/-- C3: aggregation retains only the first indicator per distinct
(category, pattern_type) pair: a later indicator whose pair already
occurred earlier is dropped from the deduplicated set and contributes
nothing to the total score, and the surviving set has pairwise distinct
pairs. -/
theorem claim_C3_dedup_first_wins (u n : String)
    (l₁ l₂ : List FraudIndicator) (j : FraudIndicator) :
    (dedupKey j ∈ l₁.map dedupKey →
      dedupIndicators (l₁ ++ j :: l₂) = dedupIndicators (l₁ ++ l₂) ∧
      (aggregateProfile u n (l₁ ++ j :: l₂)).total_score =
        (aggregateProfile u n (l₁ ++ l₂)).total_score) ∧
    ((dedupIndicators (l₁ ++ j :: l₂)).map dedupKey).Nodup := by
  constructor
  · intro h
    have hd : dedupIndicators (l₁ ++ j :: l₂) =
        dedupIndicators (l₁ ++ l₂) :=
      dedupGo_drop_dup j l₂ l₁ [] (Or.inr h)
    refine ⟨hd, ?_⟩
    rw [aggregate_total, aggregate_total, hd]
  · exact (dedupGo_keys_nodup (l₁ ++ j :: l₂) []).1

/-- Witness for C3 at a concrete input: two detectors emitting the
PRICING/THRESHOLD_PROXIMITY pair leave one surviving indicator and a
total score of 10, not 20. -/
theorem claim_C3_dedup_first_wins_witness :
    dedupIndicators
        [{ category := "PRICING", pattern_type := "THRESHOLD_PROXIMITY",
           severity := "MEDIUM", score := 10 },
         { category := "PRICING", pattern_type := "THRESHOLD_PROXIMITY",
           severity := "MEDIUM", score := 10 }] =
      dedupIndicators
        [{ category := "PRICING", pattern_type := "THRESHOLD_PROXIMITY",
           severity := "MEDIUM", score := 10 }] ∧
    (aggregateProfile "U" "N"
        [{ category := "PRICING", pattern_type := "THRESHOLD_PROXIMITY",
           severity := "MEDIUM", score := 10 },
         { category := "PRICING", pattern_type := "THRESHOLD_PROXIMITY",
           severity := "MEDIUM", score := 10 }]).total_score = 10 := by
  have h := (claim_C3_dedup_first_wins "U" "N"
    [{ category := "PRICING", pattern_type := "THRESHOLD_PROXIMITY",
       severity := "MEDIUM", score := 10 }] []
    { category := "PRICING", pattern_type := "THRESHOLD_PROXIMITY",
      severity := "MEDIUM", score := 10 }).1 (by decide)
  exact ⟨h.1, h.2.trans (by decide)⟩

/-- C5: an exact-identifier exclusion match yields the CRITICAL
score-30 EXCLUDED_ENTITY indicator; a name-only match (name excluded,
identifier not) yields the separate HIGH score-25
EXCLUDED_ENTITY_NAME_MATCH indicator; the two pattern types are
distinct dedup keys, and every emitted exclusion indicator survives
aggregation against any later detector output. -/
theorem claim_C5_exclusion_indicators (bu bn : Bool) (u n : String)
    (rest : List FraudIndicator) :
    (bu = true →
      ({ category := "EXCLUSION", pattern_type := "EXCLUDED_ENTITY",
         severity := "CRITICAL", score := 30 } : FraudIndicator) ∈
        detect_exclusions bu bn) ∧
    (bn = true → bu = false →
      ({ category := "EXCLUSION",
         pattern_type := "EXCLUDED_ENTITY_NAME_MATCH",
         severity := "HIGH", score := 25 } : FraudIndicator) ∈
        detect_exclusions bu bn) ∧
    dedupKey exactExclusionIndicator ≠ dedupKey nameExclusionIndicator ∧
    (∀ i ∈ detect_exclusions bu bn,
      i ∈ ContractorRiskProfile.indicators
            (aggregateProfile u n (detect_exclusions bu bn ++ rest))) := by
  refine ⟨?_, ?_, by decide, ?_⟩
  · rintro rfl
    cases bn <;> simp [detect_exclusions, exactExclusionIndicator]
  · rintro rfl rfl
    simp [detect_exclusions, nameExclusionIndicator]
  · intro i hi
    rw [aggregate_indicators]
    cases bu <;> cases bn <;>
      simp only [detect_exclusions, Bool.false_eq_true, if_false, if_true,
        false_and, true_and, and_true, not_false_iff, not_true,
        List.nil_append, List.append_nil, List.cons_append] at hi ⊢ <;>
      first
      | exact absurd hi (List.not_mem_nil i)
      | · simp only [List.mem_singleton] at hi
          subst hi
          simp [dedupIndicators, dedupGo]

/-! Helper lemmas about the address index. -/

theorem lookupIdx_insertIdx (k u k₂ : String) :
    ∀ idx : List (String × List String),
    lookupIdx (insertIdx idx k u) k₂ =
      lookupIdx idx k₂ ++ (if k₂ = k then [u] else []) := by
  intro idx
  induction idx with
  | nil =>
      by_cases h : k₂ = k
      · subst h; simp [insertIdx, lookupIdx]
      · simp [insertIdx, lookupIdx, h]
        exact fun hh => h hh.symm
  | cons p rest ih =>
      obtain ⟨k₁, l⟩ := p
      by_cases h₁ : k₁ = k
      · subst h₁
        by_cases h₂ : k₁ = k₂
        · subst h₂; simp [insertIdx, lookupIdx]
        · simp [insertIdx, lookupIdx, h₂]
          exact fun hh => h₂ hh.symm
      · by_cases h₂ : k₁ = k₂
        · subst h₂
          simp [insertIdx, lookupIdx, h₁]
        · simp [insertIdx, lookupIdx, h₁, h₂, ih]

theorem foldl_indexStep_lookup (env : ScanEnv) (k : String) :
    ∀ (ueis : List String) (idx : List (String × List String)),
    lookupIdx (ueis.foldl (indexStep env) idx) k =
      lookupIdx idx k ++
        ueis.filter (fun u => entityAddressKey env u = some k) := by
  intro ueis
  induction ueis with
  | nil => intro idx; simp
  | cons u rest ih =>
      intro idx
      simp only [List.foldl_cons, List.filter_cons]
      rcases hk : entityAddressKey env u with _ | k₁
      · simp only [indexStep, hk, ih idx]
        have : ¬ (entityAddressKey env u = some k) := by simp [hk]
        simp [this]
      · simp only [indexStep, hk, ih (insertIdx idx k₁ u),
          lookupIdx_insertIdx]
        by_cases h : k₁ = k
        · subst h
          have : entityAddressKey env u = some k₁ := hk
          simp [this, List.append_assoc]
        · have hne : ¬ (entityAddressKey env u = some k) := by
            simp [hk]; exact h
          simp [hne, h]
          exact fun hh => h hh.symm

theorem buildAddressIndex_lookup (env : ScanEnv)
    (contracts : List Contract) (k : String) :
    lookupIdx (buildAddressIndex env contracts) k =
      (batchUeis contracts).filter
        (fun u => entityAddressKey env u = some k) := by
  unfold buildAddressIndex
  rw [foldl_indexStep_lookup]
  rfl

/-- C9: check_shared_address counts exactly the other distinct batch
identifiers that resolve to the same normalized address key; an
unresolved entity or empty address yields 0 and is never indexed; the
shared-address list has no duplicates; and the relation is symmetric
for identifiers of the batch. -/
theorem claim_C9_shared_address (env : ScanEnv)
    (contracts : List Contract) (uei A B : String) :
    (∀ k, entityAddressKey env uei = some k →
      check_shared_address env contracts uei =
        ((batchUeis contracts).filter
          (fun u => entityAddressKey env u = some k ∧ u ≠ uei)).length) ∧
    (entityAddressKey env uei = none →
      check_shared_address env contracts uei = 0 ∧
      ∀ k, uei ∉ lookupIdx (buildAddressIndex env contracts) k) ∧
    (sharedAddressList env contracts uei).Nodup ∧
    (B ∈ sharedAddressList env contracts A →
      A ∈ batchUeis contracts →
      A ∈ sharedAddressList env contracts B) := by
  have hnodupBatch : (batchUeis contracts).Nodup := List.nodup_dedup _
  have hlist : ∀ w k, entityAddressKey env w = some k →
      sharedAddressList env contracts w =
        ((batchUeis contracts).filter
          (fun u => entityAddressKey env u = some k)).filter
          (fun u => u ≠ w) := by
    intro w k hk
    have h1 : sharedAddressList env contracts w =
        (lookupIdx (buildAddressIndex env contracts) k).filter
          (fun u => u ≠ w) := by
      unfold sharedAddressList
      rw [hk]
    rw [h1, buildAddressIndex_lookup]
  refine ⟨?_, ?_, ?_, ?_⟩
  · intro k hk
    unfold check_shared_address
    rw [hlist uei k hk, List.filter_filter]
    congr 1
    apply List.filter_congr
    intro u _
    simp [and_comm]
  · intro hk
    constructor
    · unfold check_shared_address sharedAddressList
      rw [hk]
      rfl
    · intro k hmem
      rw [buildAddressIndex_lookup] at hmem
      have := List.of_mem_filter hmem
      simp only [decide_eq_true_eq] at this
      rw [hk] at this
      exact Option.noConfusion this
  · rcases hk : entityAddressKey env uei with _ | k
    · have h0 : sharedAddressList env contracts uei = [] := by
        unfold sharedAddressList
        rw [hk]
      rw [h0]
      exact List.nodup_nil
    · rw [hlist uei k hk]
      exact (hnodupBatch.filter _).filter _
  · intro hB hA
    rcases hkA : entityAddressKey env A with _ | kA
    · have h0 : sharedAddressList env contracts A = [] := by
        unfold sharedAddressList
        rw [hkA]
      rw [h0] at hB
      exact absurd hB (List.not_mem_nil B)
    · rw [hlist A kA hkA] at hB
      have hB₁ := List.of_mem_filter hB
      have hB₂ := List.mem_of_mem_filter hB
      have hBbatch := List.mem_of_mem_filter hB₂
      have hBkey := List.of_mem_filter hB₂
      simp only [decide_eq_true_eq] at hB₁ hBkey
      rw [hlist B kA hBkey]
      refine List.mem_filter.mpr ⟨List.mem_filter.mpr ⟨hA, ?_⟩, ?_⟩
      · simp [hkA]
      · simp
        intro hEq
        exact hB₁ (Eq.symm hEq)

/-- Witness for C9 at a concrete input: entities A and B normalize to
the same key, each sees the other in its shared-address list, and the
symmetric direction for A is obtained through the theorem. -/
theorem claim_C9_shared_address_witness :
    "B" ∈ sharedAddressList envW addrBatch "A" ∧
    "A" ∈ batchUeis addrBatch ∧
    "A" ∈ sharedAddressList envW addrBatch "B" ∧
    check_shared_address envW addrBatch "A" = 1 := by
  have hB : "B" ∈ sharedAddressList envW addrBatch "A" := by decide
  have hA : "A" ∈ batchUeis addrBatch := by decide
  exact ⟨hB, hA,
    (claim_C9_shared_address envW addrBatch "" "A" "B").2.2.2 hB hA,
    by
      rw [(claim_C9_shared_address envW addrBatch "A" "" "").1
        (addressKey entA.address) rfl]
      decide⟩

/-! Helper lemmas about the scanner scoring. -/

theorem sumWeights_append (l₁ l₂ : List Flag) :
    sumWeights (l₁ ++ l₂) = sumWeights l₁ + sumWeights l₂ := by
  simp [sumWeights]

theorem mergeDeep_flags_prefix (inds : List FraudIndicator) :
    ∀ (flags : List Flag) (patterns : List String),
    ∃ t, (mergeDeep flags patterns inds).1 = flags ++ t := by
  induction inds with
  | nil => intro flags patterns; exact ⟨[], by simp [mergeDeep]⟩
  | cons i rest ih =>
      intro flags patterns
      by_cases h : i.pattern_type ∈ patterns
      · simpa [mergeDeep, h] using ih flags patterns
      · obtain ⟨t, ht⟩ := ih
          (flags ++ [{ severity := i.severity, pattern := i.pattern_type }])
          (patterns ++ [i.pattern_type])
        exact ⟨{ severity := i.severity, pattern := i.pattern_type } :: t,
          by simp [mergeDeep, h, ht]⟩

theorem collectFlags_flags_prefix (env : ScanEnv)
    (contracts : List Contract) (deep : Option ContractorRiskProfile)
    (c : Contract) :
    ∃ t, (collectFlags env contracts deep c).flags =
      fastFlags env contracts c ++ t := by
  cases deep with
  | none => exact ⟨[], by simp [collectFlags]⟩
  | some rp =>
      simpa [collectFlags] using
        mergeDeep_flags_prefix rp.indicators (fastFlags env contracts c)
          (fastPatterns env contracts c)

theorem sumWeights_regAgeFlags (r : Option Int) (v : ℚ) :
    sumWeights (regAgeFlags r v) ≤ 15 ∧
      (regAgeFlags r v).length ≤ 1 := by
  cases r with
  | none => simp [regAgeFlags, sumWeights]
  | some a =>
      simp only [regAgeFlags]
      split_ifs <;> simp [sumWeights, severityWeight]

theorem sumWeights_virtualFlags (b : Bool) :
    sumWeights (virtualFlags b) ≤ 5 ∧ (virtualFlags b).length ≤ 1 := by
  unfold virtualFlags
  split_ifs <;> simp [sumWeights, severityWeight]

theorem sumWeights_sharedFlags (m : Nat) :
    sumWeights (sharedFlags m) ≤ 15 ∧ (sharedFlags m).length ≤ 1 := by
  unfold sharedFlags
  split_ifs <;> simp [sumWeights, severityWeight]

theorem exclusion_flag_weight (env : ScanEnv) (contracts : List Contract)
    (deep : Option ContractorRiskProfile) (c : Contract)
    (hx : env.excluded c.recipient_uei = true) :
    25 ≤ sumWeights (collectFlags env contracts deep c).flags := by
  obtain ⟨t, ht⟩ := collectFlags_flags_prefix env contracts deep c
  rw [ht, sumWeights_append]
  unfold fastFlags exclusionFlags
  rw [hx]
  simp only [if_true]
  rw [sumWeights_append, sumWeights_append, sumWeights_append]
  have h25 : sumWeights [exclusionCriticalFlag] = 25 := by decide
  omega

theorem finalizeAlert_spec (c : Contract) (p : PreAlert) (a : FraudAlert)
    (h : finalizeAlert c p = some a) :
    a.risk_score = min (sumWeights p.flags) 100 ∧
    a.exclusion_match = p.exclusion_match ∧
    a.flags = p.flags ∧
    a.risk_level =
      (if 50 ≤ a.risk_score ∨ p.exclusion_match = true then "CRITICAL"
       else if 30 ≤ a.risk_score then "HIGH"
       else if 15 ≤ a.risk_score then "MEDIUM" else "LOW") := by
  simp only [finalizeAlert] at h
  split_ifs at h with h1 h2 h3 h4
  · obtain rfl : _ = a := Option.some.inj h
    refine ⟨rfl, rfl, rfl, ?_⟩
    show "CRITICAL" =
      if 50 ≤ sumWeights p.flags ⊓ 100 ∨ p.exclusion_match = true then
        "CRITICAL"
      else if 30 ≤ sumWeights p.flags ⊓ 100 then "HIGH"
      else if 15 ≤ sumWeights p.flags ⊓ 100 then "MEDIUM" else "LOW"
    rw [if_pos h1]
  · obtain rfl : _ = a := Option.some.inj h
    refine ⟨rfl, rfl, rfl, ?_⟩
    show "HIGH" =
      if 50 ≤ sumWeights p.flags ⊓ 100 ∨ p.exclusion_match = true then
        "CRITICAL"
      else if 30 ≤ sumWeights p.flags ⊓ 100 then "HIGH"
      else if 15 ≤ sumWeights p.flags ⊓ 100 then "MEDIUM" else "LOW"
    rw [if_neg h1, if_pos h2]
  · obtain rfl : _ = a := Option.some.inj h
    refine ⟨rfl, rfl, rfl, ?_⟩
    show "MEDIUM" =
      if 50 ≤ sumWeights p.flags ⊓ 100 ∨ p.exclusion_match = true then
        "CRITICAL"
      else if 30 ≤ sumWeights p.flags ⊓ 100 then "HIGH"
      else if 15 ≤ sumWeights p.flags ⊓ 100 then "MEDIUM" else "LOW"
    rw [if_neg h1, if_neg h2, if_pos h3]
  · obtain rfl : _ = a := Option.some.inj h
    refine ⟨rfl, rfl, rfl, ?_⟩
    show "LOW" =
      if 50 ≤ sumWeights p.flags ⊓ 100 ∨ p.exclusion_match = true then
        "CRITICAL"
      else if 30 ≤ sumWeights p.flags ⊓ 100 then "HIGH"
      else if 15 ≤ sumWeights p.flags ⊓ 100 then "MEDIUM" else "LOW"
    rw [if_neg h1, if_neg h2, if_neg h3]

/-- C4: for every contract the scanner analyzes into an Alert, the
Alert score is min(100, severity-weighted sum over its flags), the tier
is CRITICAL at score 50 or on an exclusion match, else HIGH at 30, else
MEDIUM at 15, else LOW; and a contract whose computed score is 0
produces no Alert. -/
theorem claim_C4_alert_scoring (env : ScanEnv) (contracts : List Contract)
    (deep : Option ContractorRiskProfile) (c : Contract) (a : FraudAlert) :
    (analyze_contract env contracts deep c = some a →
      a.risk_score = min 100 (sumWeights a.flags) ∧
      a.risk_level =
        (if 50 ≤ a.risk_score ∨ a.exclusion_match = true then "CRITICAL"
         else if 30 ≤ a.risk_score then "HIGH"
         else if 15 ≤ a.risk_score then "MEDIUM" else "LOW")) ∧
    (min 100 (sumWeights (collectFlags env contracts deep c).flags) = 0 →
      analyze_contract env contracts deep c = none) := by
  constructor
  · intro h
    unfold analyze_contract at h
    by_cases hu : c.recipient_uei = ""
    · rw [if_pos hu] at h
      exact Option.noConfusion h
    · rw [if_neg hu] at h
      obtain ⟨h1, h2, h3, h4⟩ := finalizeAlert_spec c _ a h
      refine ⟨?_, ?_⟩
      · rw [h1, h3, Nat.min_comm]
      · rw [h4, h2]
  · intro h0
    have hsw : sumWeights (collectFlags env contracts deep c).flags = 0 := by
      omega
    have hex : (collectFlags env contracts deep c).exclusion_match = false := by
      cases hb : (collectFlags env contracts deep c).exclusion_match with
      | false => rfl
      | true =>
          have hx : env.excluded c.recipient_uei = true := hb
          have := exclusion_flag_weight env contracts deep c hx
          omega
    unfold analyze_contract
    by_cases hu : c.recipient_uei = ""
    · rw [if_pos hu]
    · rw [if_neg hu]
      have hx' : ¬ ((collectFlags env contracts deep c).exclusion_match =
          true) := by
        rw [hex]; exact Bool.false_ne_true
      simp only [finalizeAlert]
      rw [hsw]
      split_ifs with h1 h2 h3 h4
      · exfalso
        rcases h1 with hg | he
        · omega
        · exact hx' he
      · exfalso; omega
      · exfalso; omega
      · exfalso; omega
      · rfl

/-- Witness for C4 at a concrete input: an excluded contractor with one
CRITICAL flag scores 25 and raises a CRITICAL alert satisfying the
scoring equations through the theorem. -/
theorem claim_C4_alert_scoring_witness :
    analyze_contract envX [] none contractA = some alertA ∧
    alertA.risk_score = min 100 (sumWeights alertA.flags) ∧
    alertA.risk_level =
      (if 50 ≤ alertA.risk_score ∨ alertA.exclusion_match = true then
         "CRITICAL"
       else if 30 ≤ alertA.risk_score then "HIGH"
       else if 15 ≤ alertA.risk_score then "MEDIUM" else "LOW") := by
  have h : analyze_contract envX [] none contractA = some alertA := by decide
  exact ⟨h, (claim_C4_alert_scoring envX [] none contractA alertA).1 h⟩

theorem exclusionFlags_length (b : Bool) :
    (exclusionFlags b).length ≤ 1 := by
  cases b <;> simp [exclusionFlags]

/-- C10: in fast mode each of the four per-contract checks contributes
at most one flag (four flags at most in total), a contract whose
contractor has no exclusion match scores at most 35, and a fast-mode
Alert is CRITICAL exactly when its contractor has an exclusion
match. -/
theorem claim_C10_fast_mode (env : ScanEnv) (contracts : List Contract)
    (c : Contract) (a : FraudAlert) :
    ((collectFlags env contracts none c).exclusion_match = false →
      sumWeights (collectFlags env contracts none c).flags ≤ 35) ∧
    (collectFlags env contracts none c).flags.length ≤ 4 ∧
    (analyze_contract env contracts none c = some a →
      (a.risk_level = "CRITICAL" ↔ a.exclusion_match = true)) := by
  have hflags : (collectFlags env contracts none c).flags =
      fastFlags env contracts c := rfl
  have hbound : (collectFlags env contracts none c).exclusion_match =
      false → sumWeights (collectFlags env contracts none c).flags ≤ 35 := by
    intro hex
    have hex' : env.excluded c.recipient_uei = false := hex
    rw [hflags]
    unfold fastFlags exclusionFlags
    rw [hex']
    simp only [Bool.false_eq_true, if_false, List.nil_append]
    rw [sumWeights_append, sumWeights_append]
    have h₁ := (sumWeights_regAgeFlags
      (check_registration_age env c.recipient_uei) c.total_obligation).1
    have h₂ := (sumWeights_virtualFlags
      (check_virtual_office env c.recipient_uei).1).1
    have h₃ := (sumWeights_sharedFlags
      (check_shared_address env contracts c.recipient_uei)).1
    omega
  refine ⟨hbound, ?_, ?_⟩
  · rw [hflags]
    unfold fastFlags
    rw [List.length_append, List.length_append, List.length_append]
    have h₀ := exclusionFlags_length (env.excluded c.recipient_uei)
    have h₁ := (sumWeights_regAgeFlags
      (check_registration_age env c.recipient_uei) c.total_obligation).2
    have h₂ := (sumWeights_virtualFlags
      (check_virtual_office env c.recipient_uei).1).2
    have h₃ := (sumWeights_sharedFlags
      (check_shared_address env contracts c.recipient_uei)).2
    omega
  · intro h
    unfold analyze_contract at h
    by_cases hu : c.recipient_uei = ""
    · rw [if_pos hu] at h
      exact Option.noConfusion h
    · rw [if_neg hu] at h
      obtain ⟨h1, h2, h3, h4⟩ := finalizeAlert_spec c _ a h
      constructor
      · intro hcrit
        by_contra hexf
        have hexf' : a.exclusion_match = false := by
          cases hx : a.exclusion_match
          · rfl
          · exact absurd hx hexf
        have hpex : (collectFlags env contracts none c).exclusion_match =
            false := h2 ▸ hexf'
        have hsw := hbound hpex
        have hrs : a.risk_score ≤ 35 := by
          rw [h1]
          omega
        rw [h4] at hcrit
        have hcond : ¬ (50 ≤ a.risk_score ∨
            (collectFlags env contracts none c).exclusion_match = true) := by
          rintro (hg | he)
          · omega
          · rw [hpex] at he
            exact Bool.false_ne_true he
        rw [if_neg hcond] at hcrit
        split_ifs at hcrit <;> exact absurd hcrit (by decide)
      · intro hext
        have hpex : (collectFlags env contracts none c).exclusion_match =
            true := h2 ▸ hext
        rw [h4, if_pos (Or.inr hpex)]

/-- Witness for C10 at concrete inputs: with nobody excluded the fast
flags of contractA weigh at most 35, and the alert of the excluded
contractor is CRITICAL if and only if its exclusion flag is set, both
through the theorem. -/
theorem claim_C10_fast_mode_witness :
    sumWeights (collectFlags envW addrBatch none contractA).flags ≤ 35 ∧
    (alertA.risk_level = "CRITICAL" ↔ alertA.exclusion_match = true) :=
  ⟨(claim_C10_fast_mode envW addrBatch contractA alertA).1 (by decide),
   (claim_C10_fast_mode envX [] contractA alertA).2.2 (by decide)⟩

/-! Helper lemmas about the Benford check. -/

theorem leadDigitAux_pos {n : Nat} (hn : n ≠ 0) :
    ∀ fuel, leadDigitAux fuel n ≠ 0 := by
  induction n using Nat.strong_induction_on with
  | _ n ih =>
      intro fuel
      cases fuel with
      | zero => exact hn
      | succ fuel =>
          simp only [leadDigitAux]
          split_ifs with h10
          · exact hn
          · have hdiv : n / 10 ≠ 0 := by omega
            have hlt : n / 10 < n := by omega
            exact ih (n / 10) hlt hdiv fuel

theorem natLeadDigit_ne_zero {n : Nat} (hn : n ≠ 0) :
    natLeadDigit n ≠ 0 :=
  leadDigitAux_pos hn n

theorem get_first_digit_pos_isSome {q : ℚ} (hq : 0 < q) :
    (get_first_digit q).isSome := by
  have hnle : ¬ q ≤ 0 := not_le.mpr hq
  have ha : q.num.toNat ≠ 0 := by
    have h := Rat.num_pos.mpr hq
    omega
  have hlt : q.den < 10 ^ q.den := Nat.lt_pow_self (by norm_num) q.den
  have h1 : q.num.toNat * 10 ^ q.den / q.den ≠ 0 := by
    have hle : q.den ≤ q.num.toNat * 10 ^ q.den :=
      calc q.den ≤ 10 ^ q.den := le_of_lt hlt
        _ ≤ q.num.toNat * 10 ^ q.den :=
          Nat.le_mul_of_pos_left _ (Nat.pos_of_ne_zero ha)
    have := (Nat.one_le_div_iff q.den_pos).mpr hle
    omega
  have hd := natLeadDigit_ne_zero h1
  simp only [get_first_digit]
  rw [if_neg hnle, if_neg hd]
  rfl

theorem filterMap_digits_length (amounts : List ℚ)
    (hpos : ∀ q ∈ amounts, 0 < q) :
    (amounts.filterMap get_first_digit).length = amounts.length := by
  induction amounts with
  | nil => rfl
  | cons a rest ih =>
      have ha := hpos a (List.mem_cons_self _ _)
      obtain ⟨d, hd⟩ := Option.isSome_iff_exists.mp
        (get_first_digit_pos_isSome ha)
      simp only [List.filterMap_cons, hd, List.length_cons]
      rw [ih (fun q hq => hpos q (List.mem_cons_of_mem _ hq))]

theorem contractorAmounts_pos (contracts : List Contract) (uei : String) :
    ∀ q ∈ contractorAmounts contracts uei, 0 < q := by
  intro q hq
  simp only [contractorAmounts, List.mem_filterMap] at hq
  obtain ⟨c, _, h⟩ := hq
  split_ifs at h with hcond
  obtain rfl := Option.some.inj h
  exact hcond.2

theorem analyze_benfords_law_some (amounts : List ℚ)
    (h : ¬ ((amounts.filterMap get_first_digit).length < 50)) :
    analyze_benfords_law amounts 50 =
      some (mkBenfordAnomaly (amounts.filterMap get_first_digit)) := by
  simp only [analyze_benfords_law]
  rw [if_neg h]

theorem analyze_contractor_amounts_char (contracts : List Contract)
    (uei : String)
    (h50 : 50 ≤ (contractorAmounts contracts uei).length) :
    analyze_contractor_amounts contracts uei =
      (if (mkBenfordAnomaly ((contractorAmounts contracts uei).filterMap
            get_first_digit)).is_anomalous = true then
        some (mkBenfordFinding
          (mkBenfordAnomaly ((contractorAmounts contracts uei).filterMap
            get_first_digit)))
      else none) := by
  have hlen : ((contractorAmounts contracts uei).filterMap
      get_first_digit).length = (contractorAmounts contracts uei).length :=
    filterMap_digits_length _ (contractorAmounts_pos contracts uei)
  have h30 : ¬ ((contractorAmounts contracts uei).length < 30) := by omega
  have h50' : ¬ (((contractorAmounts contracts uei).filterMap
      get_first_digit).length < 50) := by omega
  simp only [analyze_contractor_amounts]
  rw [if_neg h30, analyze_benfords_law_some _ h50']

theorem mkBenfordAnomaly_is_anomalous (digits : List Nat) :
    (mkBenfordAnomaly digits).is_anomalous =
      decide (CHI_SQUARE_CRITICAL < chiSquareStat digits) := rfl

set_option maxRecDepth 16000 in
/-- C6 (amended): the contractor distribution check produces a finding
exactly when there are at least 50 usable samples and the chi-square
statistic of the leading-digit frequencies exceeds 15.51 (the inner
analysis requires 50 samples although the outer gate checks only 30);
the finding is the MEDIUM score-10 indicator reporting the chi-square,
the sample size, the most-deviant digit and whether it is over- or
under-represented; with fewer than 50 samples (in particular fewer than
30) no finding is produced. -/
theorem claim_C6_benford_amended (contracts : List Contract)
    (uei : String) :
    (50 ≤ (contractorAmounts contracts uei).length →
      ((analyze_contractor_amounts contracts uei).isSome ↔
        CHI_SQUARE_CRITICAL <
          chiSquareStat ((contractorAmounts contracts uei).filterMap
            get_first_digit)) ∧
      (∀ f, analyze_contractor_amounts contracts uei = some f →
        f.pattern_type = "BENFORDS_LAW_VIOLATION" ∧
        f.severity = "MEDIUM" ∧ f.score = 10 ∧
        f.chi_square = chiSquareStat
          ((contractorAmounts contracts uei).filterMap get_first_digit) ∧
        f.sample_size = (contractorAmounts contracts uei).length ∧
        f.most_deviant_digit =
          (mostDeviantCalc ((contractorAmounts contracts uei).filterMap
            get_first_digit)).2 ∧
        f.deviation_over =
          decide (BENFORD_EXPECTED
              ((mostDeviantCalc
                ((contractorAmounts contracts uei).filterMap
                  get_first_digit)).2) <
            observedFreq
              ((contractorAmounts contracts uei).filterMap get_first_digit)
              ((mostDeviantCalc
                ((contractorAmounts contracts uei).filterMap
                  get_first_digit)).2)))) ∧
    ((contractorAmounts contracts uei).length < 50 →
      analyze_contractor_amounts contracts uei = none) := by
  have hlen : ((contractorAmounts contracts uei).filterMap
      get_first_digit).length = (contractorAmounts contracts uei).length :=
    filterMap_digits_length _ (contractorAmounts_pos contracts uei)
  constructor
  · intro h50
    rw [analyze_contractor_amounts_char contracts uei h50,
      mkBenfordAnomaly_is_anomalous]
    by_cases hchi : CHI_SQUARE_CRITICAL <
        chiSquareStat ((contractorAmounts contracts uei).filterMap
          get_first_digit)
    · rw [if_pos (decide_eq_true hchi)]
      refine ⟨by simpa using hchi, ?_⟩
      intro f hf
      obtain rfl : _ = f := Option.some.inj hf
      exact ⟨rfl, rfl, rfl, rfl, hlen, rfl, rfl⟩
    · rw [if_neg (by simpa using hchi)]
      refine ⟨by simpa using hchi, ?_⟩
      intro f hf
      exact Option.noConfusion hf
  · intro h50
    by_cases h30 : (contractorAmounts contracts uei).length < 30
    · simp only [analyze_contractor_amounts]
      rw [if_pos h30]
    · have hnone : analyze_benfords_law
          (contractorAmounts contracts uei) 50 = none := by
        simp only [analyze_benfords_law]
        rw [if_pos (by omega)]
      simp only [analyze_contractor_amounts]
      rw [if_neg h30, hnone]

set_option maxRecDepth 16000 in
/-- Counterexample to C6 as stated: a batch of 30 contracts whose
amounts all lead with digit 9 clears the stated 30-sample gate and has
a chi-square statistic far above 15.51, yet the check produces no
finding, because the inner analysis demands 50 samples. -/
theorem claim_C6_counterexample :
    30 ≤ (contractorAmounts benfordBatch "UEI9").length ∧
    CHI_SQUARE_CRITICAL <
      chiSquareStat ((contractorAmounts benfordBatch "UEI9").filterMap
        get_first_digit) ∧
    analyze_contractor_amounts benfordBatch "UEI9" = none := by
  have hD : (contractorAmounts benfordBatch "UEI9").filterMap
      get_first_digit = List.replicate 30 9 := by decide
  refine ⟨by decide, ?_, by decide⟩
  rw [hD]
  simp only [chiSquareStat, benfordDigits, List.foldl_cons, List.foldl_nil,
    observedFreq, List.count_replicate, List.length_replicate,
    BENFORD_EXPECTED, CHI_SQUARE_CRITICAL]
  norm_num

set_option maxRecDepth 16000 in
/-- Witness for C6 (amended) at a concrete input: the 30-amount batch
falls under the 50-sample bound, and the theorem yields no finding. -/
theorem claim_C6_benford_amended_witness :
    (contractorAmounts benfordBatch "UEI9").length < 50 ∧
    analyze_contractor_amounts benfordBatch "UEI9" = none :=
  ⟨by decide,
   (claim_C6_benford_amended benfordBatch "UEI9").2 (by decide)⟩

/-! Helper lemmas about the splitting detector. -/

theorem length_filterMap_isSome {α β : Type} (f : α → Option β) :
    ∀ l : List α, (∀ a ∈ l, (f a).isSome) →
    (l.filterMap f).length = l.length := by
  intro l
  induction l with
  | nil => intro _; rfl
  | cons a rest ih =>
      intro h
      obtain ⟨b, hb⟩ := Option.isSome_iff_exists.mp
        (h a (List.mem_cons_self _ _))
      simp only [List.filterMap_cons, hb, List.length_cons]
      rw [ih (fun x hx => h x (List.mem_cons_of_mem _ hx))]

theorem relevant_start_date_isSome (contracts : List Contract)
    (uei agency : String) (now lookback : Int) :
    ∀ c ∈ relevantContracts contracts uei agency now lookback,
      c.start_date.isSome := by
  intro c hc
  have hp := List.of_mem_filter hc
  simp only [decide_eq_true_eq] at hp
  rcases hd : c.start_date with _ | d
  · rw [hd] at hp
    simp [Option.any] at hp
  · rfl

/-- C7: whenever at least 3 of a contractor-and-agency group of
contracts inside the 180-day lookback window sit at 85 to 99.9 percent
of a regulatory threshold and their average inter-award gap is under 45
days, detect_contract_splitting emits the HIGH score-20
CONTRACT_SPLITTING indicator for that threshold, reporting the contract
count, total and average value and mean gap; and the three fixture
contracts spaced 200 days apart trigger nothing. -/
theorem claim_C7_contract_splitting (contracts : List Contract)
    (uei agency tn : String) (tv : Nat) (now : Int) :
    ((tn, tv) ∈ THRESHOLDS →
      3 ≤ (nearThreshold
        (relevantContracts contracts uei agency now 180) tv).length →
      averageGapDays (nearThreshold
        (relevantContracts contracts uei agency now 180) tv) < 45 →
      ∃ ind ∈ detect_contract_splitting contracts uei agency now 180,
        ind.pattern_type = "CONTRACT_SPLITTING" ∧
        ind.severity = "HIGH" ∧ ind.score = 20 ∧
        ind.threshold_name = tn ∧ ind.threshold_value = tv ∧
        ind.contract_count = (nearThreshold
          (relevantContracts contracts uei agency now 180) tv).length ∧
        ind.total_value = ((nearThreshold
          (relevantContracts contracts uei agency now 180) tv).map
            (·.total_obligation)).sum ∧
        ind.average_value = ((nearThreshold
          (relevantContracts contracts uei agency now 180) tv).map
            (·.total_obligation)).sum /
          ((nearThreshold
            (relevantContracts contracts uei agency now 180) tv).length :
              ℚ) ∧
        ind.average_gap_days = averageGapDays (nearThreshold
          (relevantContracts contracts uei agency now 180) tv)) ∧
    detect_contract_splitting splitBatchSpread "X" "AG" 1000 180 = [] := by
  constructor
  · intro hmem h3 hgap
    have hsub : (nearThreshold
        (relevantContracts contracts uei agency now 180) tv).length ≤
        (relevantContracts contracts uei agency now 180).length :=
      List.length_filter_le _ _
    have hrel3 : ¬ ((relevantContracts contracts uei agency now 180).length
        < 3) := by omega
    have hnear3 : ¬ ((nearThreshold
        (relevantContracts contracts uei agency now 180) tv).length < 3) :=
      by omega
    have hdates : ((nearThreshold
        (relevantContracts contracts uei agency now 180) tv).filterMap
          (·.start_date)).length =
        (nearThreshold
          (relevantContracts contracts uei agency now 180) tv).length := by
      apply length_filterMap_isSome
      intro c hc
      exact relevant_start_date_isSome contracts uei agency now 180 c
        (List.mem_of_mem_filter hc)
    have h2 : ¬ (((nearThreshold
        (relevantContracts contracts uei agency now 180) tv).filterMap
          (·.start_date)).length < 2) := by omega
    have hsplit : splitCheck
        (relevantContracts contracts uei agency now 180) tn tv =
        some
          { pattern_type := "CONTRACT_SPLITTING"
            severity := "HIGH"
            score := 20
            threshold_name := tn
            threshold_value := tv
            contract_count := (nearThreshold
              (relevantContracts contracts uei agency now 180) tv).length
            average_value := ((nearThreshold
              (relevantContracts contracts uei agency now 180) tv).map
                (·.total_obligation)).sum /
              ((nearThreshold
                (relevantContracts contracts uei agency now 180)
                  tv).length : ℚ)
            total_value := ((nearThreshold
              (relevantContracts contracts uei agency now 180) tv).map
                (·.total_obligation)).sum
            average_gap_days := averageGapDays (nearThreshold
              (relevantContracts contracts uei agency now 180) tv) } := by
      simp only [splitCheck]
      rw [if_neg hnear3, if_neg h2, if_pos hgap]
    exact ⟨_, by
        simp only [detect_contract_splitting]
        rw [if_neg hrel3]
        exact List.mem_filterMap.mpr ⟨(tn, tv), hmem, hsplit⟩,
      rfl, rfl, rfl, rfl, rfl, rfl, rfl, rfl, rfl⟩
  · decide

/-- Witness for C7 at the concrete close-spaced fixture: the three
contracts at days 980, 990 and 1000 yield the CONTRACT_SPLITTING
indicator for the 250000 threshold through the theorem. -/
theorem claim_C7_contract_splitting_witness :
    ∃ ind ∈ detect_contract_splitting splitBatchClose "X" "AG" 1000 180,
      ind.pattern_type = "CONTRACT_SPLITTING" ∧
      ind.severity = "HIGH" ∧ ind.score = 20 := by
  have hrel : relevantContracts splitBatchClose "X" "AG" 1000 180 =
      splitBatchClose := by decide
  have hnear : nearThreshold splitBatchClose 250000 = splitBatchClose := by
    unfold nearThreshold splitBatchClose baseContract
    norm_num [List.filter]
  have h3 : 3 ≤ (nearThreshold
      (relevantContracts splitBatchClose "X" "AG" 1000 180)
      250000).length := by
    rw [hrel, hnear]
    decide
  have hgap : averageGapDays (nearThreshold
      (relevantContracts splitBatchClose "X" "AG" 1000 180) 250000) < 45 := by
    rw [hrel, hnear]
    unfold averageGapDays
    have hdates : sortDates (splitBatchClose.filterMap (·.start_date)) =
        [980, 990, 1000] := by decide
    rw [hdates]
    norm_num [gapSum]
  obtain ⟨ind, hmem, h₁, h₂, h₃, _⟩ :=
    (claim_C7_contract_splitting splitBatchClose "X" "AG"
      "simplified_acquisition" 250000 1000).1 (by decide) h3 hgap
  exact ⟨ind, hmem, h₁, h₂, h₃⟩

/-- C8 (amended): analyze_contractor_modifications flags growth above
50 percent and below 200 percent as MEDIUM score 10 and growth of 200
percent or more as HIGH score 15 (SIGNIFICANT_VALUE_GROWTH), and the
emitted indicator reaches the contractor analysis; detect_value_growth_pattern
flags growth above 200 percent as HIGH score 20 (EXTREME_VALUE_GROWTH)
when the concentration rule does not fire; and whenever growth exceeds
50 percent and one modification exceeds 70 percent of a positive total
modification value among at least 2 recorded modifications, it returns
HIGH (CONCENTRATED_MOD_GROWTH, score 15) regardless of the plain-growth
tier. -/
theorem claim_C8_growth_amended (c : Contract) (o cur : ℚ)
    (hist : List ℚ) :
    (0 < originalValueOf c →
      originalValueOf c * (3/2) < c.total_obligation →
      ((c.total_obligation - originalValueOf c) / originalValueOf c < 2 →
        valueGrowthIndicators c =
          [{ pattern_type := "SIGNIFICANT_VALUE_GROWTH"
             severity := "MEDIUM"
             score := 10
             contract_id := c.contract_id
             evidence :=
               [("original_value", originalValueOf c),
                ("current_value", c.total_obligation),
                ("growth_percentage",
                 (c.total_obligation - originalValueOf c) /
                   originalValueOf c * 100)] }]) ∧
      (2 ≤ (c.total_obligation - originalValueOf c) / originalValueOf c →
        valueGrowthIndicators c =
          [{ pattern_type := "SIGNIFICANT_VALUE_GROWTH"
             severity := "HIGH"
             score := 15
             contract_id := c.contract_id
             evidence :=
               [("original_value", originalValueOf c),
                ("current_value", c.total_obligation),
                ("growth_percentage",
                 (c.total_obligation - originalValueOf c) /
                   originalValueOf c * 100)] }]) ∧
      (∀ ind ∈ valueGrowthIndicators c,
        ind ∈ analyze_contractor_modifications [c] c.recipient_uei)) ∧
    (0 < o → 2 < (cur - o) / o →
      ¬ (2 ≤ hist.length ∧ 0 < hist.sum ∧
          7/10 < listMax hist / hist.sum) →
      hist ≠ [] →
      detect_value_growth_pattern o cur hist =
        some
          { pattern_type := "EXTREME_VALUE_GROWTH"
            severity := "HIGH"
            score := 20
            contract_id := ""
            evidence :=
              [("original_value", o), ("current_value", cur),
               ("growth_percentage", (cur - o) / o * 100),
               ("modification_count", (hist.length : ℚ))] }) ∧
    (0 < o → 2 ≤ hist.length → 0 < hist.sum →
      7/10 < listMax hist / hist.sum → 1/2 < (cur - o) / o →
      detect_value_growth_pattern o cur hist =
        some
          { pattern_type := "CONCENTRATED_MOD_GROWTH"
            severity := "HIGH"
            score := 15
            contract_id := ""
            evidence :=
              [("original_value", o), ("current_value", cur),
               ("total_growth", (cur - o) / o),
               ("max_modification", listMax hist),
               ("concentration", listMax hist / hist.sum)] }) := by
  refine ⟨?_, ?_, ?_⟩
  · intro h₀ h₁
    have hcase : valueGrowthIndicators c =
        [{ pattern_type := "SIGNIFICANT_VALUE_GROWTH"
           severity := if (c.total_obligation - originalValueOf c) /
               originalValueOf c < 2 then "MEDIUM" else "HIGH"
           score := if (c.total_obligation - originalValueOf c) /
               originalValueOf c < 2 then 10 else 15
           contract_id := c.contract_id
           evidence :=
             [("original_value", originalValueOf c),
              ("current_value", c.total_obligation),
              ("growth_percentage",
               (c.total_obligation - originalValueOf c) /
                 originalValueOf c * 100)] }] := by
      simp only [valueGrowthIndicators]
      rw [if_pos ⟨h₀, h₁⟩]
    refine ⟨?_, ?_, ?_⟩
    · intro hlt
      rw [hcase, if_pos hlt, if_pos hlt]
    · intro hge
      have hnlt : ¬ ((c.total_obligation - originalValueOf c) /
          originalValueOf c < 2) := not_lt.mpr hge
      rw [hcase, if_neg hnlt, if_neg hnlt]
    · intro ind hind
      simp only [analyze_contractor_modifications, List.filter_cons,
        decide_True, List.filter_nil, decide_eq_true_eq, if_true]
      simp only [List.flatMap_cons, List.flatMap_nil, List.append_nil]
      exact List.mem_append_right _ hind
  · intro h₀ hgr hnc hne
    have hnle : ¬ (o ≤ 0 ∨ hist = []) := by
      push_neg
      exact ⟨h₀, hne⟩
    simp only [detect_value_growth_pattern]
    rw [if_neg hnle]
    have hconc : (if 2 ≤ hist.length then
        (if 0 < hist.sum then
          (if 7/10 < listMax hist / hist.sum ∧ 1/2 < (cur - o) / o then
            some
              { pattern_type := "CONCENTRATED_MOD_GROWTH"
                severity := "HIGH"
                score := 15
                contract_id := ""
                evidence :=
                  [("original_value", o), ("current_value", cur),
                   ("total_growth", (cur - o) / o),
                   ("max_modification", listMax hist),
                   ("concentration", listMax hist / hist.sum)] }
          else none)
        else none)
      else (none : Option ModIndicator)) = none := by
      by_cases hl : 2 ≤ hist.length
      · by_cases hs : 0 < hist.sum
        · rw [if_pos hl, if_pos hs, if_neg ?_]
          rintro ⟨hc7, _⟩
          exact hnc ⟨hl, hs, hc7⟩
        · rw [if_pos hl, if_neg hs]
      · rw [if_neg hl]
    rw [hconc]
    rw [if_pos hgr]
  · intro h₀ hl hs hc7 hgr
    have hne : hist ≠ [] := by
      intro h
      rw [h] at hl
      simp at hl
    have hnle : ¬ (o ≤ 0 ∨ hist = []) := by
      push_neg
      exact ⟨h₀, hne⟩
    simp only [detect_value_growth_pattern]
    rw [if_neg hnle, if_pos hl, if_pos hs, if_pos ⟨hc7, hgr⟩]

set_option maxRecDepth 4000 in
/-- Counterexample to C8 as stated: growth of 150 percent is above 100
percent, yet analyze_contractor_modifications emits the MEDIUM score-10
SIGNIFICANT_VALUE_GROWTH indicator (not HIGH score 20), and
detect_value_growth_pattern (whose HIGH score-20 tier requires growth
above 200 percent) returns nothing for it. -/
theorem claim_C8_counterexample :
    (1:ℚ) < (250 - 100) / 100 ∧
    analyze_contractor_modifications [growthContract] "UG" =
      [{ pattern_type := "SIGNIFICANT_VALUE_GROWTH"
         severity := "MEDIUM"
         score := 10
         contract_id := "K1"
         evidence :=
           [("original_value", 100), ("current_value", 250),
            ("growth_percentage", 150)] }] ∧
    detect_value_growth_pattern 100 250 [60, 90] = none := by
  refine ⟨by norm_num, ?_, ?_⟩
  · norm_num [analyze_contractor_modifications, growthContract,
      baseContract, excessiveModIndicators, valueGrowthIndicators,
      originalValueOf, durationMonthsOf, List.filter]
  · norm_num [detect_value_growth_pattern, listMax]

/-- Witness for C8 (amended) at concrete inputs: the fixture contract
with 150 percent growth resolves to the MEDIUM score-10 indicator, and
amounts concentrated 80 percent in one modification at 160 percent
growth resolve to the CONCENTRATED_MOD_GROWTH indicator, both through
the theorem. -/
theorem claim_C8_growth_amended_witness :
    valueGrowthIndicators growthContract =
      [{ pattern_type := "SIGNIFICANT_VALUE_GROWTH"
         severity := "MEDIUM"
         score := 10
         contract_id := "K1"
         evidence :=
           [("original_value", originalValueOf growthContract),
            ("current_value", growthContract.total_obligation),
            ("growth_percentage",
             (growthContract.total_obligation -
               originalValueOf growthContract) /
               originalValueOf growthContract * 100)] }] ∧
    detect_value_growth_pattern 100 260 [80, 20] =
      some
        { pattern_type := "CONCENTRATED_MOD_GROWTH"
          severity := "HIGH"
          score := 15
          contract_id := ""
          evidence :=
            [("original_value", 100), ("current_value", 260),
             ("total_growth", (260 - 100) / 100),
             ("max_modification", listMax [80, 20]),
             ("concentration", listMax [80, 20] / List.sum [80, 20])] } :=
  ⟨((claim_C8_growth_amended growthContract 100 260 [80, 20]).1
      (by norm_num [originalValueOf, growthContract, baseContract])
      (by norm_num [originalValueOf, growthContract, baseContract])).1
      (by norm_num [originalValueOf, growthContract, baseContract]),
   (claim_C8_growth_amended growthContract 100 260 [80, 20]).2.2
      (by norm_num) (by norm_num [listMax]) (by norm_num [listMax])
      (by norm_num [listMax]) (by norm_num)⟩

/-- Witness for C5 at concrete inputs: an identifier match yields the
CRITICAL score-30 indicator, a name-only match yields the HIGH score-25
indicator, and the latter survives aggregation past a later
same-category indicator, all through the theorem. -/
theorem claim_C5_exclusion_indicators_witness :
    ({ category := "EXCLUSION", pattern_type := "EXCLUDED_ENTITY",
       severity := "CRITICAL", score := 30 } : FraudIndicator) ∈
      detect_exclusions true false ∧
    ({ category := "EXCLUSION",
       pattern_type := "EXCLUDED_ENTITY_NAME_MATCH",
       severity := "HIGH", score := 25 } : FraudIndicator) ∈
      detect_exclusions false true ∧
    nameExclusionIndicator ∈
      ContractorRiskProfile.indicators
        (aggregateProfile "U" "N"
          (detect_exclusions false true ++ [nameExclusionIndicator])) :=
  ⟨(claim_C5_exclusion_indicators true false "U" "N" []).1 rfl,
   (claim_C5_exclusion_indicators false true "U" "N" []).2.1 rfl rfl,
   (claim_C5_exclusion_indicators false true "U" "N"
     [nameExclusionIndicator]).2.2.2 nameExclusionIndicator (by decide)⟩

end Ferret
